import Mathlib

/-!
Verification of the hmt-escrow repository (Solana escrow program, CLI and
functional test). The repository's own sources under scrutiny are the CLI
(cli/src/main.rs) and the functional test (program/tests/functional.rs);
the escrow program crate itself (modules state, processor, instruction)
is referenced by both but its source is absent, so those parts are modelled
from the specification, as marked on each definition.

Addresses (32-byte public keys) are modelled as natural numbers; account data
is a list of bytes (naturals smaller than 256 where produced by the program).
-/

namespace HmtEscrow

/-- Addresses on the ledger, 32-byte public keys, modelled as naturals. -/
abbrev Pubkey := Nat

/-- Little-endian byte encoding of a natural into a fixed width. -/
def toBytesLE : Nat → Nat → List Nat
  | 0, _ => []
  | w + 1, n => n % 256 :: toBytesLE w (n / 256)

/-- Little-endian byte decoding. -/
def ofBytesLE : List Nat → Nat
  | [] => 0
  | b :: bs => b + 256 * ofBytesLE bs

theorem toBytesLE_length (w n : Nat) : (toBytesLE w n).length = w := by
  induction w generalizing n with
  | zero => rfl
  | succ w ih => simp [toBytesLE, ih]

theorem ofBytesLE_toBytesLE (w n : Nat) : ofBytesLE (toBytesLE w n) = n % 256 ^ w := by
  induction w generalizing n with
  | zero => simp [toBytesLE, ofBytesLE, Nat.mod_one]
  | succ w ih =>
      simp only [toBytesLE, ofBytesLE, ih]
      rw [pow_succ, mul_comm (256 ^ w) 256, Nat.mod_mul]

theorem ofBytesLE_toBytesLE_of_lt {w n : Nat} (h : n < 256 ^ w) :
    ofBytesLE (toBytesLE w n) = n := by
  rw [ofBytesLE_toBytesLE, Nat.mod_eq_of_lt h]

/-- Lifecycle states of an escrow record observed in the material: the
implicit zero state and the Launched state set by Initialize. -/
inductive EscrowState
  | Uninitialized
  | Launched
deriving DecidableEq, Repr

/-- Typed error outcomes of the escrow program and processor. -/
inductive EscrowError
  | AlreadyInitialized
  | InvalidAccountSize
  | InvalidOwner
  | InvalidAuthority
  | MintMismatch
  | InvalidInstructionData
  | EscrowExpired
deriving DecidableEq, Repr

def EscrowState.toTag : EscrowState → Nat
  | .Uninitialized => 0
  | .Launched => 1

def EscrowState.ofTag (n : Nat) : Option EscrowState :=
  if n = 0 then some .Uninitialized
  else if n = 1 then some .Launched
  else none

theorem EscrowState.ofTag_toTag (s : EscrowState) : EscrowState.ofTag s.toTag = some s := by
  cases s <;> rfl

/-- Modelled from the spec: the Escrow Account Record of hmt_escrow::state
(source absent from src/), a fixed-size packed record with fields state tag,
bump seed byte, five 32-byte addresses and a u64 duration. -/
structure Escrow where
  state : EscrowState
  bump_seed : Nat
  token_mint : Pubkey
  token_account : Pubkey
  launcher : Pubkey
  canceler : Pubkey
  canceler_token_account : Pubkey
  duration : Nat
deriving DecidableEq, Repr

/-- Modelled from the spec: RECORD_LEN (Escrow::LEN), the sum of the packed
field widths: 1 + 1 + 5 * 32 + 8. -/
def Escrow.LEN : Nat := 170

/-- Modelled from the spec: packing the record into its fixed binary layout. -/
def Escrow.pack (e : Escrow) : List Nat :=
  toBytesLE 1 e.state.toTag ++ (toBytesLE 1 e.bump_seed ++
  (toBytesLE 32 e.token_mint ++ (toBytesLE 32 e.token_account ++
  (toBytesLE 32 e.launcher ++ (toBytesLE 32 e.canceler ++
  (toBytesLE 32 e.canceler_token_account ++ toBytesLE 8 e.duration))))))

/-- Modelled from the spec: Escrow::unpack_from_slice, rejecting a slice whose
length is not exactly RECORD_LEN and an out-of-range state tag. -/
def Escrow.unpack_from_slice (bs : List Nat) : Option Escrow :=
  if bs.length = Escrow.LEN then
    match EscrowState.ofTag (ofBytesLE (bs.take 1)) with
    | none => none
    | some st =>
        let r1 := bs.drop 1
        let r2 := r1.drop 1
        let r3 := r2.drop 32
        let r4 := r3.drop 32
        let r5 := r4.drop 32
        let r6 := r5.drop 32
        let r7 := r6.drop 32
        some { state := st
               bump_seed := ofBytesLE (r1.take 1)
               token_mint := ofBytesLE (r2.take 32)
               token_account := ofBytesLE (r3.take 32)
               launcher := ofBytesLE (r4.take 32)
               canceler := ofBytesLE (r5.take 32)
               canceler_token_account := ofBytesLE (r6.take 32)
               duration := ofBytesLE (r7.take 8) }
  else none

theorem Escrow.pack_length (e : Escrow) : e.pack.length = Escrow.LEN := by
  simp [Escrow.pack, Escrow.LEN, toBytesLE_length]

/-- Field bounds under which the packed layout is lossless. -/
def Escrow.wf (e : Escrow) : Prop :=
  e.bump_seed < 256 ∧ e.token_mint < 256 ^ 32 ∧ e.token_account < 256 ^ 32 ∧
  e.launcher < 256 ^ 32 ∧ e.canceler < 256 ^ 32 ∧
  e.canceler_token_account < 256 ^ 32 ∧ e.duration < 256 ^ 8

theorem Escrow.unpack_pack (e : Escrow) (h : e.wf) :
    Escrow.unpack_from_slice e.pack = some e := by
  obtain ⟨hb, hm, ht, hl, hc, hct, hd⟩ := h
  have tag_lt : e.state.toTag < 256 ^ 1 := by cases e.state <;> simp [EscrowState.toTag]
  simp only [Escrow.unpack_from_slice, Escrow.pack_length, if_pos]
  simp only [Escrow.pack]
  rw [List.take_left' (toBytesLE_length 1 _), List.drop_left' (toBytesLE_length 1 _),
    List.take_left' (toBytesLE_length 1 _), List.drop_left' (toBytesLE_length 1 _),
    List.take_left' (toBytesLE_length 32 _), List.drop_left' (toBytesLE_length 32 _),
    List.take_left' (toBytesLE_length 32 _), List.drop_left' (toBytesLE_length 32 _),
    List.take_left' (toBytesLE_length 32 _), List.drop_left' (toBytesLE_length 32 _),
    List.take_left' (toBytesLE_length 32 _), List.drop_left' (toBytesLE_length 32 _),
    List.take_left' (toBytesLE_length 32 _), List.drop_left' (toBytesLE_length 32 _)]
  rw [ofBytesLE_toBytesLE_of_lt tag_lt, EscrowState.ofTag_toTag]
  have take8 : (toBytesLE 8 e.duration).take 8 = toBytesLE 8 e.duration := by
    apply List.take_of_length_le
    simp [toBytesLE_length]
  rw [take8, ofBytesLE_toBytesLE_of_lt hb, ofBytesLE_toBytesLE_of_lt hm,
    ofBytesLE_toBytesLE_of_lt ht, ofBytesLE_toBytesLE_of_lt hl,
    ofBytesLE_toBytesLE_of_lt hc, ofBytesLE_toBytesLE_of_lt hct,
    ofBytesLE_toBytesLE_of_lt hd]

/-- Modelled from the spec: one step of the ledger's deterministic-address
derivation is abstracted as a hash combining (record address, candidate
disambiguator byte, program identity), together with a predicate telling
whether the resulting address is a valid point on the signing curve. -/
structure DeriveOracle where
  hash : Pubkey → Nat → Pubkey → Pubkey
  onCurve : Pubkey → Bool

/-- Modelled from the spec: the search loop of
Processor::find_authority_bump_seed (hmt_escrow::processor source absent from
src/), trying candidate disambiguator bytes downward from the given one and
returning the first derived address off the signing curve. -/
def findFrom (o : DeriveOracle) (program_id escrow : Pubkey) : Nat → Option (Pubkey × Nat)
  | 0 =>
      if o.onCurve (o.hash escrow 0 program_id) then none
      else some (o.hash escrow 0 program_id, 0)
  | b + 1 =>
      if o.onCurve (o.hash escrow (b + 1) program_id) then findFrom o program_id escrow b
      else some (o.hash escrow (b + 1) program_id, b + 1)

/-- Modelled from the spec: Processor::find_authority_bump_seed, mapping
(program identity, escrow record address) to the derived custodian authority
and its disambiguator byte, candidates decreasing from 255. -/
def find_authority_bump_seed (o : DeriveOracle) (program_id escrow : Pubkey) :
    Option (Pubkey × Nat) :=
  findFrom o program_id escrow 255

theorem findFrom_spec (o : DeriveOracle) (program_id escrow : Pubkey) (b : Nat)
    (addr : Pubkey) (s : Nat) (h : findFrom o program_id escrow b = some (addr, s)) :
    s ≤ b ∧ addr = o.hash escrow s program_id ∧ o.onCurve addr = false ∧
      ∀ b', s < b' → b' ≤ b → o.onCurve (o.hash escrow b' program_id) = true := by
  induction b with
  | zero =>
      simp only [findFrom] at h
      by_cases hc : o.onCurve (o.hash escrow 0 program_id)
      · simp [hc] at h
      · simp [hc] at h
        obtain ⟨h1, h2⟩ := h
        subst h2
        subst h1
        refine ⟨le_refl 0, rfl, Bool.eq_false_iff.mpr hc, ?_⟩
        intro b' hlt hle
        omega
  | succ b ih =>
      simp only [findFrom] at h
      by_cases hc : o.onCurve (o.hash escrow (b + 1) program_id)
      · rw [if_pos hc] at h
        obtain ⟨hle, haddr, hcurve, hfirst⟩ := ih h
        refine ⟨Nat.le_succ_of_le hle, haddr, hcurve, ?_⟩
        intro b' hlt hle'
        rcases Nat.lt_or_ge b' (b + 1) with h' | h'
        · exact hfirst b' hlt (Nat.lt_succ_iff.mp h')
        · have : b' = b + 1 := le_antisymm hle' h'
          rw [this]
          exact hc
      · rw [if_neg hc] at h
        simp only [Option.some.injEq, Prod.mk.injEq] at h
        obtain ⟨h1, h2⟩ := h
        subst h2
        subst h1
        refine ⟨le_refl _, rfl, Bool.eq_false_iff.mpr hc, ?_⟩
        intro b' hlt hle'
        omega

theorem find_authority_bump_seed_spec (o : DeriveOracle) (program_id escrow : Pubkey)
    (addr : Pubkey) (s : Nat)
    (h : find_authority_bump_seed o program_id escrow = some (addr, s)) :
    s ≤ 255 ∧ addr = o.hash escrow s program_id ∧ o.onCurve addr = false ∧
      ∀ b', s < b' → b' ≤ 255 → o.onCurve (o.hash escrow b' program_id) = true :=
  findFrom_spec o program_id escrow 255 addr s h

/-- Modelled from the spec: the fields of an Initialize request
(hmt_escrow::instruction source absent from src/): mint, escrow token
account, launcher, canceler, canceler token account, duration. -/
structure InitArgs where
  mint : Pubkey
  escrow_token : Pubkey
  launcher : Pubkey
  canceler : Pubkey
  canceler_token : Pubkey
  duration : Nat
deriving DecidableEq, Repr

/-- Relevant on-ledger state of the dependent token program's account: the
program that owns it, the mint it references, and its authority field. -/
structure TokenAccountState where
  owner_program : Pubkey
  mint : Pubkey
  authority : Pubkey
deriving DecidableEq, Repr

/-- Field bounds under which the packed record of an Initialize request is
lossless: each address fits in 32 bytes and the duration in 8. -/
def InitArgs.wf (a : InitArgs) : Prop :=
  a.mint < 256 ^ 32 ∧ a.escrow_token < 256 ^ 32 ∧ a.launcher < 256 ^ 32 ∧
  a.canceler < 256 ^ 32 ∧ a.canceler_token < 256 ^ 32 ∧ a.duration < 256 ^ 8

/-- Modelled from the spec: the Initialize branch of Processor::process
(hmt_escrow::processor source absent from src/). Read-only validation first,
returning the first failing check: record size must equal RECORD_LEN before
any deserialization, record must be owned by this program, record must
deserialize with the uninitialized state tag, the custodian authority is
re-derived, the supplied token account must be owned by the token program,
carry the derived authority and reference the requested mint; only then is
the fully populated record written, with state Launched and the discovered
bump seed. -/
def process_init (o : DeriveOracle) (program_id spl_token_id : Pubkey)
    (escrow_key escrow_owner : Pubkey) (escrow_data : List Nat)
    (token : TokenAccountState) (args : InitArgs) : Except EscrowError (List Nat) :=
  if escrow_data.length ≠ Escrow.LEN then .error .InvalidAccountSize
  else if escrow_owner ≠ program_id then .error .InvalidOwner
  else
    match Escrow.unpack_from_slice escrow_data with
    | none => .error .InvalidInstructionData
    | some e =>
      if e.state ≠ .Uninitialized then .error .AlreadyInitialized
      else
        match find_authority_bump_seed o program_id escrow_key with
        | none => .error .InvalidAuthority
        | some (authority, bump) =>
          if token.owner_program ≠ spl_token_id then .error .InvalidOwner
          else if token.authority ≠ authority then .error .InvalidAuthority
          else if token.mint ≠ args.mint then .error .MintMismatch
          else .ok (Escrow.pack
            { state := .Launched
              bump_seed := bump
              token_mint := args.mint
              token_account := args.escrow_token
              launcher := args.launcher
              canceler := args.canceler
              canceler_token_account := args.canceler_token
              duration := args.duration })

/-- The record account's bytes after an Initialize attempt: the new packed
record on success, the unchanged prior bytes on failure (the host's atomic
batch discards all writes of a failed instruction). -/
def apply_init (o : DeriveOracle) (program_id spl_token_id : Pubkey)
    (escrow_key escrow_owner : Pubkey) (escrow_data : List Nat)
    (token : TokenAccountState) (args : InitArgs) : List Nat :=
  match process_init o program_id spl_token_id escrow_key escrow_owner escrow_data token args with
  | .ok d => d
  | .error _ => escrow_data

/-- A freshly created record account's data: RECORD_LEN zero bytes. -/
def initial_record_data : List Nat := List.replicate Escrow.LEN 0

/-- Modelled from the spec: the batch assembled by the CLI create command and
the functional test: create the record account (owned by this program, zeroed,
RECORD_LEN bytes), create and set up the escrow token account with the mint
from the request and authority equal to the derived custodian address, then
run Initialize. -/
def create_and_init_batch (o : DeriveOracle) (program_id spl_token_id : Pubkey)
    (escrow_key : Pubkey) (args : InitArgs) : Except EscrowError (List Nat) :=
  match find_authority_bump_seed o program_id escrow_key with
  | none => .error .InvalidAuthority
  | some (authority, _) =>
      process_init o program_id spl_token_id escrow_key program_id initial_record_data
        { owner_program := spl_token_id, mint := args.mint, authority := authority } args

/-- Modelled from the spec: hmt_escrow::instruction encoding of an Initialize
request (source absent from src/): a leading variant tag byte (0 for
Initialize) followed by the five 32-byte addresses and the u64 duration in
the compact binary envelope. -/
def encode_init_request (a : InitArgs) : List Nat :=
  0 :: (toBytesLE 32 a.mint ++ (toBytesLE 32 a.escrow_token ++
    (toBytesLE 32 a.launcher ++ (toBytesLE 32 a.canceler ++
    (toBytesLE 32 a.canceler_token ++ toBytesLE 8 a.duration)))))

/-- Modelled from the spec: decoding of the binary envelope, failing
(returning none) on empty input, an unknown variant tag, and any payload
length other than exactly five addresses plus a u64 (no trailing bytes). -/
def decode_request (bs : List Nat) : Option InitArgs :=
  match bs with
  | [] => none
  | tag :: rest =>
      if tag = 0 then
        if rest.length = 168 then
          let r1 := rest.drop 32
          let r2 := r1.drop 32
          let r3 := r2.drop 32
          let r4 := r3.drop 32
          some { mint := ofBytesLE (rest.take 32)
                 escrow_token := ofBytesLE (r1.take 32)
                 launcher := ofBytesLE (r2.take 32)
                 canceler := ofBytesLE (r3.take 32)
                 canceler_token := ofBytesLE (r4.take 32)
                 duration := ofBytesLE (r4.drop 32) }
        else none
      else none

/-- Modelled from the spec: the expiry policy check evaluated against the
ledger's current time on each invocation of an operation requiring
non-expiry: the escrow is operational strictly before creation time plus
duration and expired from that moment on. -/
def check_not_expired (creation_time duration now : Nat) : Except EscrowError Unit :=
  if now < creation_time + duration then .ok () else .error .EscrowExpired

/-- Lifecycle operations relevant to the expiry policy: forward-progress
operations and cancellation/return. -/
inductive EscrowOp
  | Forward
  | Cancel
deriving DecidableEq, Repr

/-- Modelled from the spec: forward-progress operations are gated on
non-expiry, while cancellation/return remains available after expiry. -/
def op_requires_not_expired : EscrowOp → Bool
  | .Forward => true
  | .Cancel => false

/-- Modelled from the spec: the expiry gate applied to an operation. -/
def expiry_gate (op : EscrowOp) (creation_time duration now : Nat) :
    Except EscrowError Unit :=
  if op_requires_not_expired op then check_not_expired creation_time duration now
  else .ok ()

/-- Modelled from the spec: Initialize as invoked in a signed transaction.
The preconditions of the Initialize operation constrain only the supplied
accounts and request, never the signer set, so the processor's outcome is
computed from those alone; the signer list is carried but not consulted. -/
def process_init_signed (signers : List Pubkey) (o : DeriveOracle)
    (program_id spl_token_id : Pubkey) (escrow_key escrow_owner : Pubkey)
    (escrow_data : List Nat) (token : TokenAccountState) (args : InitArgs) :
    Except EscrowError (List Nat) :=
  match signers with
  | _ => process_init o program_id spl_token_id escrow_key escrow_owner escrow_data token args

/-- Rent and fee figures the CLI create command queries from the ledger. -/
structure CreateEnv where
  token_account_rent : Nat
  escrow_account_rent : Nat
  txn_fee : Nat
  fee_payer_balance : Nat
deriving DecidableEq, Repr

/-- From cli/src/main.rs (command_create_escrow): the balance the command
requires before submitting, total_rent_free_balances (token account rent plus
escrow account rent, computed before the canceler-token branch) plus the
transaction fee; the optional canceler token argument does not enter it. -/
def cli_required_balance (env : CreateEnv) (canceler_token : Option Pubkey) : Nat :=
  match canceler_token with
  | _ => env.token_account_rent + env.escrow_account_rent + env.txn_fee

/-- From cli/src/main.rs (check_fee_payer_balance): error when the fee
payer's balance is below the required balance. -/
def check_fee_payer_balance (balance required : Nat) : Except Unit Unit :=
  if balance < required then .error () else .ok ()

/-- From cli/src/main.rs (command_create_escrow): the rent-exemption minimums
of the accounts the assembled batch creates: the escrow token account and the
escrow record account always, plus a canceler token account exactly when no
canceler-receiver address was supplied. -/
def cli_created_accounts_rent (env : CreateEnv) (canceler_token : Option Pubkey) : Nat :=
  match canceler_token with
  | some _ => env.token_account_rent + env.escrow_account_rent
  | none => env.token_account_rent + env.escrow_account_rent + env.token_account_rent

/-- From cli/src/main.rs (command_create_escrow): whether the command's
pre-submission balance check passes. -/
def cli_balance_check_passes (env : CreateEnv) (canceler_token : Option Pubkey) : Bool :=
  match check_fee_payer_balance env.fee_payer_balance (cli_required_balance env canceler_token) with
  | .ok _ => true
  | .error _ => false

/-- Concrete derivation oracle for evaluating the development on explicit
inputs: the hash adds its inputs and a point is on the curve when even. -/
def testOracle : DeriveOracle :=
  { hash := fun escrow bump program_id => escrow + bump + program_id
    onCurve := fun a => a % 2 = 0 }

/-- Claim C3: for every program identity and escrow record address, the
custodian-authority derivation tries candidate disambiguator bytes decreasing
from 255, accepts the first candidate whose derived address is not a valid
point on the signing curve, and returns that address together with that
disambiguator byte; the returned address is never a valid signing-curve
point. -/
theorem find_authority_first_off_curve (o : DeriveOracle) (program_id escrow addr : Pubkey)
    (s : Nat) (h : find_authority_bump_seed o program_id escrow = some (addr, s)) :
    addr = o.hash escrow s program_id ∧ s ≤ 255 ∧ o.onCurve addr = false ∧
      ∀ b', s < b' → b' ≤ 255 → o.onCurve (o.hash escrow b' program_id) = true := by
  obtain ⟨h1, h2, h3, h4⟩ := find_authority_bump_seed_spec o program_id escrow addr s h
  exact ⟨h2, h1, h3, h4⟩

/-- Witness for C3 at a concrete oracle: candidate 255 derives 257, which is
off the curve, and is returned. -/
theorem find_authority_first_off_curve_witness :
    (257 : Pubkey) = testOracle.hash 1 255 1 ∧ 255 ≤ 255 ∧
      testOracle.onCurve 257 = false ∧
      ∀ b', 255 < b' → b' ≤ 255 → testOracle.onCurve (testOracle.hash 1 b' 1) = true :=
  find_authority_first_off_curve testOracle 1 1 257 255 (by decide)

/-- Claim C4: two invocations of the custodian-authority derivation on the
same (program identity, record address) pair return the same derived address
and the same disambiguator byte. -/
theorem find_authority_deterministic (o : DeriveOracle) (program_id escrow : Pubkey)
    (r1 r2 : Option (Pubkey × Nat))
    (h1 : r1 = find_authority_bump_seed o program_id escrow)
    (h2 : r2 = find_authority_bump_seed o program_id escrow) : r1 = r2 :=
  h1.trans h2.symm

/-- Witness for C4 at a concrete oracle. -/
theorem find_authority_deterministic_witness :
    (some ((257 : Pubkey), 255) : Option (Pubkey × Nat)) = some (257, 255) :=
  find_authority_deterministic testOracle 1 1 (some (257, 255)) (some (257, 255))
    (by decide) (by decide)

/-- Claim C9: an operation requiring non-expiry succeeds (with respect to the
expiry gate) when the current time is strictly below creation time plus
duration and fails with EscrowExpired from that moment on, while
cancellation/return passes the gate at any time. -/
theorem expiry_boundary (creation_time duration now : Nat) :
    (now < creation_time + duration →
      expiry_gate .Forward creation_time duration now = .ok ()) ∧
    (creation_time + duration ≤ now →
      expiry_gate .Forward creation_time duration now = .error .EscrowExpired) ∧
    expiry_gate .Cancel creation_time duration now = .ok () := by
  refine ⟨fun h => ?_, fun h => ?_, rfl⟩
  · simp [expiry_gate, op_requires_not_expired, check_not_expired, h]
  · simp [expiry_gate, op_requires_not_expired, check_not_expired, Nat.not_lt.mpr h]

/-- Witness for C9 at concrete times around the boundary. -/
theorem expiry_boundary_witness :
    expiry_gate .Forward 5 3 7 = .ok () ∧
    expiry_gate .Forward 5 3 8 = .error .EscrowExpired ∧
    expiry_gate .Cancel 5 3 100 = .ok () :=
  ⟨(expiry_boundary 5 3 7).1 (by decide), (expiry_boundary 5 3 8).2.1 (by decide),
    (expiry_boundary 5 3 100).2.2⟩

/-- Claim C8: encoding an Initialize request with fields (mint, escrow token,
launcher, canceler, canceler token, duration) to the binary envelope and
decoding the resulting bytes yields exactly the same request. -/
theorem decode_encode_request (a : InitArgs) (h : a.wf) :
    decode_request (encode_init_request a) = some a := by
  obtain ⟨hm, ht, hl, hc, hct, hd⟩ := h
  have h168 : (toBytesLE 32 a.mint ++ (toBytesLE 32 a.escrow_token ++
      (toBytesLE 32 a.launcher ++ (toBytesLE 32 a.canceler ++
      (toBytesLE 32 a.canceler_token ++ toBytesLE 8 a.duration))))).length = 168 := by
    simp [toBytesLE_length]
  simp only [encode_init_request, decode_request, h168, if_pos rfl]
  rw [List.take_left' (toBytesLE_length 32 _), List.drop_left' (toBytesLE_length 32 _),
    List.take_left' (toBytesLE_length 32 _), List.drop_left' (toBytesLE_length 32 _),
    List.take_left' (toBytesLE_length 32 _), List.drop_left' (toBytesLE_length 32 _),
    List.take_left' (toBytesLE_length 32 _), List.drop_left' (toBytesLE_length 32 _),
    List.take_left' (toBytesLE_length 32 _), List.drop_left' (toBytesLE_length 32 _)]
  rw [ofBytesLE_toBytesLE_of_lt hm, ofBytesLE_toBytesLE_of_lt ht,
    ofBytesLE_toBytesLE_of_lt hl, ofBytesLE_toBytesLE_of_lt hc,
    ofBytesLE_toBytesLE_of_lt hct, ofBytesLE_toBytesLE_of_lt hd]
  simp

/-- Witness for C8 at a concrete request. -/
theorem decode_encode_request_witness :
    decode_request (encode_init_request ⟨1, 2, 3, 4, 5, 6⟩) = some ⟨1, 2, 3, 4, 5, 6⟩ :=
  decode_encode_request ⟨1, 2, 3, 4, 5, 6⟩ (by norm_num [InitArgs.wf])

/-- Claim C6: Initialize fails with InvalidAccountSize on a record account
whose byte length differs from RECORD_LEN in either direction, before any
look at the record's content, and never reports InvalidAccountSize on a
record of exactly RECORD_LEN bytes. -/
theorem size_gate (o : DeriveOracle) (program_id spl_token_id escrow_key escrow_owner : Pubkey)
    (escrow_data : List Nat) (token : TokenAccountState) (args : InitArgs) :
    (escrow_data.length ≠ Escrow.LEN →
      process_init o program_id spl_token_id escrow_key escrow_owner escrow_data token args
        = .error .InvalidAccountSize) ∧
    (escrow_data.length = Escrow.LEN →
      process_init o program_id spl_token_id escrow_key escrow_owner escrow_data token args
        ≠ .error .InvalidAccountSize) := by
  constructor
  · intro h
    simp [process_init, h]
  · intro h
    have hlen : ¬escrow_data.length ≠ Escrow.LEN := by simp [h]
    by_cases hown : escrow_owner ≠ program_id
    · simp [process_init, hlen, hown]
    · rcases hu : Escrow.unpack_from_slice escrow_data with _ | e
      · simp [process_init, hlen, hown, hu]
      · by_cases hst : e.state ≠ EscrowState.Uninitialized
        · simp [process_init, hlen, hown, hu, hst]
        · rcases hf : find_authority_bump_seed o program_id escrow_key with _ | ⟨authority, bump⟩
          · simp [process_init, hlen, hown, hu, hst, hf]
          · by_cases h5 : token.owner_program ≠ spl_token_id
            · simp [process_init, hlen, hown, hu, hst, hf, h5]
            · by_cases h6 : token.authority ≠ authority
              · simp [process_init, hlen, hown, hu, hst, hf, h5, h6]
              · by_cases h7 : token.mint ≠ args.mint
                · simp [process_init, hlen, hown, hu, hst, hf, h5, h6, h7]
                · simp [process_init, hlen, hown, hu, hst, hf, h5, h6, h7]

/-- Witness for C6: an empty record account is rejected with
InvalidAccountSize; a RECORD_LEN-byte record is not. -/
theorem size_gate_witness :
    process_init testOracle 1 7 1 1 [] ⟨7, 1, 257⟩ ⟨1, 2, 3, 4, 5, 6⟩
      = .error .InvalidAccountSize ∧
    process_init testOracle 1 7 1 1 initial_record_data ⟨7, 1, 257⟩ ⟨1, 2, 3, 4, 5, 6⟩
      ≠ .error .InvalidAccountSize :=
  ⟨(size_gate testOracle 1 7 1 1 [] ⟨7, 1, 257⟩ ⟨1, 2, 3, 4, 5, 6⟩).1 (by decide),
    (size_gate testOracle 1 7 1 1 initial_record_data ⟨7, 1, 257⟩ ⟨1, 2, 3, 4, 5, 6⟩).2
      (by simp [initial_record_data])⟩

set_option maxRecDepth 4000 in
theorem unpack_initial_record :
    Escrow.unpack_from_slice initial_record_data =
      some ⟨.Uninitialized, 0, 0, 0, 0, 0, 0, 0⟩ := by
  rfl

theorem initial_record_length : initial_record_data.length = Escrow.LEN := by
  simp [initial_record_data]

/-- Success of Initialize on a freshly created record account and a token
account carrying the derived authority and the requested mint. -/
theorem process_init_fresh_ok (o : DeriveOracle) (program_id spl_token_id escrow_key : Pubkey)
    (args : InitArgs) (authority : Pubkey) (bump : Nat)
    (hfind : find_authority_bump_seed o program_id escrow_key = some (authority, bump)) :
    process_init o program_id spl_token_id escrow_key program_id initial_record_data
      { owner_program := spl_token_id, mint := args.mint, authority := authority } args =
      .ok (Escrow.pack
        { state := .Launched, bump_seed := bump, token_mint := args.mint
          token_account := args.escrow_token, launcher := args.launcher
          canceler := args.canceler, canceler_token_account := args.canceler_token
          duration := args.duration }) := by
  simp [process_init, initial_record_length, unpack_initial_record, hfind]

/-- Claim C1: the creation batch — create the record account, create the
escrow token account with authority equal to the derived custodian address,
then Initialize with mint M, escrow token T, launcher L, canceler C, canceler
token CT and duration D — succeeds, and the record afterwards unpacks to
state Launched, bump_seed equal to the independently derived disambiguator,
and every address and duration field equal to the request. -/
theorem end_to_end_init_ok (o : DeriveOracle) (program_id spl_token_id escrow_key : Pubkey)
    (args : InitArgs) (authority : Pubkey) (bump : Nat)
    (hfind : find_authority_bump_seed o program_id escrow_key = some (authority, bump))
    (hwf : args.wf) :
    create_and_init_batch o program_id spl_token_id escrow_key args =
      .ok (Escrow.pack
        { state := .Launched, bump_seed := bump, token_mint := args.mint
          token_account := args.escrow_token, launcher := args.launcher
          canceler := args.canceler, canceler_token_account := args.canceler_token
          duration := args.duration }) ∧
    Escrow.unpack_from_slice (Escrow.pack
        { state := .Launched, bump_seed := bump, token_mint := args.mint
          token_account := args.escrow_token, launcher := args.launcher
          canceler := args.canceler, canceler_token_account := args.canceler_token
          duration := args.duration }) =
      some
        { state := .Launched, bump_seed := bump, token_mint := args.mint
          token_account := args.escrow_token, launcher := args.launcher
          canceler := args.canceler, canceler_token_account := args.canceler_token
          duration := args.duration } := by
  obtain ⟨hm, ht, hl, hc, hct, hd⟩ := hwf
  have hbump : bump < 256 := by
    have := (find_authority_bump_seed_spec o program_id escrow_key authority bump hfind).1
    omega
  constructor
  · simp only [create_and_init_batch, hfind]
    exact process_init_fresh_ok o program_id spl_token_id escrow_key args authority bump hfind
  · exact Escrow.unpack_pack _ ⟨hbump, hm, ht, hl, hc, hct, hd⟩

/-- Witness for C1 at a concrete oracle and request. -/
theorem end_to_end_init_ok_witness :
    create_and_init_batch testOracle 1 7 1 ⟨1, 2, 3, 4, 5, 6⟩ =
      .ok (Escrow.pack ⟨.Launched, 255, 1, 2, 3, 4, 5, 6⟩) ∧
    Escrow.unpack_from_slice (Escrow.pack ⟨.Launched, 255, 1, 2, 3, 4, 5, 6⟩) =
      some ⟨.Launched, 255, 1, 2, 3, 4, 5, 6⟩ :=
  end_to_end_init_ok testOracle 1 7 1 ⟨1, 2, 3, 4, 5, 6⟩ 257 255 (by decide)
    (by norm_num [InitArgs.wf])

/-- Claim C2: with the record account freshly created and owned by the
program and the token account owned by the token program, Initialize fails
with InvalidAuthority exactly when the supplied token account's on-ledger
authority differs from the address the program derives for (program identity,
record address). -/
theorem init_authority_binding (o : DeriveOracle) (program_id spl_token_id escrow_key : Pubkey)
    (token : TokenAccountState) (args : InitArgs) (authority : Pubkey) (bump : Nat)
    (hfind : find_authority_bump_seed o program_id escrow_key = some (authority, bump))
    (howner : token.owner_program = spl_token_id) :
    process_init o program_id spl_token_id escrow_key program_id initial_record_data token args
      = .error .InvalidAuthority ↔ token.authority ≠ authority := by
  by_cases hauth : token.authority ≠ authority
  · simp [process_init, initial_record_length, unpack_initial_record, hfind, howner, hauth]
  · by_cases hmint : token.mint ≠ args.mint
    · simp [process_init, initial_record_length, unpack_initial_record, hfind, howner, hauth, hmint]
    · simp [process_init, initial_record_length, unpack_initial_record, hfind, howner, hauth, hmint]

/-- Witness for C2 at a concrete oracle: a token account whose authority is
not the derived address is rejected with InvalidAuthority. -/
theorem init_authority_binding_witness :
    process_init testOracle 1 7 1 1 initial_record_data ⟨7, 1, 999⟩ ⟨1, 2, 3, 4, 5, 6⟩
      = .error .InvalidAuthority ↔ (999 : Pubkey) ≠ 257 :=
  init_authority_binding testOracle 1 7 1 ⟨7, 1, 999⟩ ⟨1, 2, 3, 4, 5, 6⟩ 257 255
    (by decide) rfl

/-- Claim C5: once an Initialize on a record has succeeded and produced
record bytes d1, any second Initialize on those bytes fails with
AlreadyInitialized, and the record bytes after the failed attempt are exactly
d1 (no incomplete write occurs on the failing attempt). -/
theorem second_init_rejected (o : DeriveOracle) (program_id spl_token_id escrow_key : Pubkey)
    (escrow_owner : Pubkey) (d0 d1 : List Nat) (token token' : TokenAccountState)
    (args args' : InitArgs) (hwf : args.wf)
    (h1 : process_init o program_id spl_token_id escrow_key escrow_owner d0 token args = .ok d1) :
    process_init o program_id spl_token_id escrow_key escrow_owner d1 token' args'
      = .error .AlreadyInitialized ∧
    apply_init o program_id spl_token_id escrow_key escrow_owner d1 token' args' = d1 := by
  obtain ⟨hm, ht, hl, hc, hct, hd⟩ := hwf
  have hc1 := h1
  simp only [process_init] at hc1
  by_cases hlen : d0.length ≠ Escrow.LEN
  · rw [if_pos hlen] at hc1
    exact absurd hc1 (by simp)
  rw [if_neg hlen] at hc1
  by_cases hown : escrow_owner ≠ program_id
  · rw [if_pos hown] at hc1
    exact absurd hc1 (by simp)
  rw [if_neg hown] at hc1
  rcases hu : Escrow.unpack_from_slice d0 with _ | e
  · simp [hu] at hc1
  simp only [hu] at hc1
  by_cases hst : e.state ≠ EscrowState.Uninitialized
  · rw [if_pos hst] at hc1
    exact absurd hc1 (by simp)
  rw [if_neg hst] at hc1
  rcases hf : find_authority_bump_seed o program_id escrow_key with _ | ⟨authority, bump⟩
  · simp [hf] at hc1
  simp only [hf] at hc1
  by_cases h5 : token.owner_program ≠ spl_token_id
  · rw [if_pos h5] at hc1
    exact absurd hc1 (by simp)
  rw [if_neg h5] at hc1
  by_cases h6 : token.authority ≠ authority
  · rw [if_pos h6] at hc1
    exact absurd hc1 (by simp)
  rw [if_neg h6] at hc1
  by_cases h7 : token.mint ≠ args.mint
  · rw [if_pos h7] at hc1
    exact absurd hc1 (by simp)
  rw [if_neg h7] at hc1
  simp only [Except.ok.injEq] at hc1
  have hbump : bump < 256 := by
    have := (find_authority_bump_seed_spec o program_id escrow_key authority bump hf).1
    omega
  have hu1 : Escrow.unpack_from_slice d1 =
      some
        { state := .Launched, bump_seed := bump, token_mint := args.mint
          token_account := args.escrow_token, launcher := args.launcher
          canceler := args.canceler, canceler_token_account := args.canceler_token
          duration := args.duration } := by
    rw [← hc1]
    exact Escrow.unpack_pack _ ⟨hbump, hm, ht, hl, hc, hct, hd⟩
  have hlen1 : d1.length = Escrow.LEN := by
    rw [← hc1]
    exact Escrow.pack_length _
  have hsecond : process_init o program_id spl_token_id escrow_key escrow_owner d1 token' args'
      = .error .AlreadyInitialized := by
    have hown' : escrow_owner = program_id := by
      by_contra hcontra
      exact hown hcontra
    simp [process_init, hlen1, hown', hu1]
  refine ⟨hsecond, ?_⟩
  simp [apply_init, hsecond]

/-- Witness for C5 at a concrete oracle: re-running Initialize on the record
produced by a successful Initialize fails with AlreadyInitialized and leaves
the bytes unchanged. -/
theorem second_init_rejected_witness :
    process_init testOracle 1 7 1 1 (Escrow.pack ⟨.Launched, 255, 1, 2, 3, 4, 5, 6⟩)
      ⟨7, 1, 257⟩ ⟨1, 2, 3, 4, 5, 6⟩ = .error .AlreadyInitialized ∧
    apply_init testOracle 1 7 1 1 (Escrow.pack ⟨.Launched, 255, 1, 2, 3, 4, 5, 6⟩)
      ⟨7, 1, 257⟩ ⟨1, 2, 3, 4, 5, 6⟩ = Escrow.pack ⟨.Launched, 255, 1, 2, 3, 4, 5, 6⟩ :=
  second_init_rejected testOracle 1 7 1 1 initial_record_data
    (Escrow.pack ⟨.Launched, 255, 1, 2, 3, 4, 5, 6⟩) ⟨7, 1, 257⟩ ⟨7, 1, 257⟩
    ⟨1, 2, 3, 4, 5, 6⟩ ⟨1, 2, 3, 4, 5, 6⟩ (by norm_num [InitArgs.wf])
    (process_init_fresh_ok testOracle 1 7 1 ⟨1, 2, 3, 4, 5, 6⟩ 257 255 (by decide))

/-- Claim C10: the Initialize operation's preconditions constrain only the
supplied accounts and the request, never the signer set: its outcome is the
same under any two signer lists, and with only the fee payer signing it
succeeds on a batch satisfying the account preconditions. -/
theorem init_no_signature_needed (signers signers' : List Pubkey) (o : DeriveOracle)
    (program_id spl_token_id escrow_key fee_payer : Pubkey) (args : InitArgs)
    (authority : Pubkey) (bump : Nat)
    (hfind : find_authority_bump_seed o program_id escrow_key = some (authority, bump)) :
    process_init_signed signers o program_id spl_token_id escrow_key program_id
        initial_record_data ⟨spl_token_id, args.mint, authority⟩ args =
      process_init_signed signers' o program_id spl_token_id escrow_key program_id
        initial_record_data ⟨spl_token_id, args.mint, authority⟩ args ∧
    process_init_signed [fee_payer] o program_id spl_token_id escrow_key program_id
        initial_record_data ⟨spl_token_id, args.mint, authority⟩ args =
      .ok (Escrow.pack
        { state := .Launched, bump_seed := bump, token_mint := args.mint
          token_account := args.escrow_token, launcher := args.launcher
          canceler := args.canceler, canceler_token_account := args.canceler_token
          duration := args.duration }) :=
  ⟨rfl, process_init_fresh_ok o program_id spl_token_id escrow_key args authority bump hfind⟩

/-- Witness for C10 at a concrete oracle, with only the fee payer signing. -/
theorem init_no_signature_needed_witness :
    process_init_signed [11] testOracle 1 7 1 1 initial_record_data ⟨7, 1, 257⟩
        ⟨1, 2, 3, 4, 5, 6⟩ =
      process_init_signed [12, 13] testOracle 1 7 1 1 initial_record_data ⟨7, 1, 257⟩
        ⟨1, 2, 3, 4, 5, 6⟩ ∧
    process_init_signed [11] testOracle 1 7 1 1 initial_record_data ⟨7, 1, 257⟩
        ⟨1, 2, 3, 4, 5, 6⟩ = .ok (Escrow.pack ⟨.Launched, 255, 1, 2, 3, 4, 5, 6⟩) :=
  init_no_signature_needed [11] [12, 13] testOracle 1 7 1 11 ⟨1, 2, 3, 4, 5, 6⟩ 257 255
    (by decide)

/-- Claim C7: at token account rent 1, escrow account rent 1, transaction fee
0 and fee payer balance 2, with no canceler-receiver supplied, the CLI's
pre-submission balance check passes although the batch creates accounts whose
rent-exemption minimums plus the fee exceed the fee payer's balance: the
required balance computed by command_create_escrow omits the freshly created
canceler token account's rent. -/
theorem cli_balance_check_omits_canceler_rent :
    cli_balance_check_passes ⟨1, 1, 0, 2⟩ none = true ∧
    CreateEnv.fee_payer_balance ⟨1, 1, 0, 2⟩ <
      cli_created_accounts_rent ⟨1, 1, 0, 2⟩ none + CreateEnv.txn_fee ⟨1, 1, 0, 2⟩ := by
  decide

end HmtEscrow
